import Mathlib

/-!
Verification development for the GPyTorch HPC tutorial notebook
(`GPyTorch_HPC_Tutorial.ipynb`).

The notebook is a linear script: it loads two `.npy` arrays, reshapes
them into training tensors, builds GP models from library components,
runs two gradient-descent training loops, predicts, and plots.  We embed
the notebook's own computations shallowly:

* array values are rationals (`ℚ`); the loaded arrays are parameters
  (`inputData`, `outputData`) given as index functions, since the data
  files are external;
* NumPy slicing, `swapaxes`, broadcasting and `reshape` are embedded as
  index arithmetic on those functions, following the source cell by cell;
* the imperative skeleton of the script (imports, file loads, training
  loops, mode switches, predictions, plotting) is deep-embedded as a
  list of statements with an effect semantics, so that claims about
  I/O behaviour, error handling and stage ordering can be stated.
-/

namespace Notebook

/-! ## Cell 2: loading the data

`input_data_all = np.load(...)`, `output_data_all = np.load(...)`.
The arrays live on disk; we model their contents as index functions.
An input-array element is addressed by
(day, latitude-tile, longitude-tile, row, column, component) and an
output-array element by (day, latitude-tile, longitude-tile, row, column):
the source comments record `365 days, 18 N-S * 39 W-E tiles, each 16*16
points`, with N-S tiling the latitude direction and W-E the longitude
direction, inputs carrying a final coordinate pair. -/

/-- Contents of `droughtSVDI_data_input.npy`:
arguments are day, latitude-tile, longitude-tile, row, column, component. -/
def InputArray : Type := ℕ → ℕ → ℕ → ℕ → ℕ → ℕ → ℚ

/-- Contents of `droughtSVDI_data_ouput.npy` (path typo is the source's):
arguments are day, latitude-tile, longitude-tile, row, column. -/
def OutputArray : Type := ℕ → ℕ → ℕ → ℕ → ℕ → ℚ

/-- `np.arange(start, start+n, dtype=np.float64)` as a list of rationals. -/
def arange (start n : ℕ) : List ℚ :=
  (List.range n).map (fun (k : ℕ) => (start : ℚ) + (k : ℚ))

theorem arange_length (start n : ℕ) : (arange start n).length = n := by
  rw [arange, List.length_map, List.length_range]

theorem arange_getD (start n k : ℕ) (hk : k < n) :
    (arange start n).getD k 0 = (start : ℚ) + k := by
  have hlen : k < (arange start n).length := by
    rw [arange_length]; exact hk
  rw [List.getD_eq_getElem _ _ hlen]
  simp only [arange, List.getElem_map, List.getElem_range]

end Notebook

namespace TimeSeries

open Notebook

/-! ## Cell 4: time-series data prep

```
long=12 ; lat=30 ; point = (8,8)
Start_Day=10 ; N_Train = 120
train_x = np.arange(Start_Day, Start_Day+N_Train, ...).reshape((N_Train,1))
train_y = output_data_all[Start_Day:Start_Day+N_Train, long, lat, point[0], point[1]]
```
(the variables named `long` and `lat` are positional indices into the
latitude-tile and longitude-tile axes respectively). -/

def long : ℕ := 12
def lat : ℕ := 30
def point : ℕ × ℕ := (8, 8)
def Start_Day : ℕ := 10
def N_Train : ℕ := 120

/-- `train_x` (the reshape to `(N_Train, 1)` makes each entry a
1-dimensional location vector; we keep the scalar value). -/
def train_x : List ℚ := arange Start_Day N_Train

/-- `train_y`: the day-slice of the output array at the fixed tile/point. -/
def train_y (out : OutputArray) : List ℚ :=
  (List.range N_Train).map
    (fun k => out (Start_Day + k) long lat point.1 point.2)

/-! ## Cell 10: time-series test data

```
Test_Days = N_Train + 30
Start_Test = Start_Day
test_x = np.arange(Start_Test, Start_Test+Test_Days, ...).reshape((Test_Days,1))
test_y = output_data_all[Start_Test:Start_Test+Test_Days, long, lat, point[0], point[1]]
```
-/

def Test_Days : ℕ := N_Train + 30
def Start_Test : ℕ := Start_Day

def test_x : List ℚ := arange Start_Test Test_Days

def test_y (out : OutputArray) : List ℚ :=
  (List.range Test_Days).map
    (fun k => out (Start_Test + k) long lat point.1 point.2)

end TimeSeries

/-- Claim C9: in the time-series section the test set extends the training
set: with `Start_Test = Start_Day = 10` and `Test_Days = N_Train + 30`, for
every `k < N_Train = 120` we have `test_x[k] = train_x[k]` and
`test_y[k] = train_y[k]`, and `test_x` contains exactly 30 additional
consecutive days beyond the training window (its length is `N_Train + 30`
and successive entries differ by one day). -/
theorem C9_test_extends_train (out : Notebook.OutputArray) (k : ℕ)
    (hk : k < TimeSeries.N_Train) :
    TimeSeries.Start_Test = TimeSeries.Start_Day ∧
    TimeSeries.Test_Days = TimeSeries.N_Train + 30 ∧
    TimeSeries.test_x.getD k 0 = TimeSeries.train_x.getD k 0 ∧
    (TimeSeries.test_y out).getD k 0 = (TimeSeries.train_y out).getD k 0 ∧
    TimeSeries.test_x.length = TimeSeries.N_Train + 30 ∧
    (∀ m, m + 1 < TimeSeries.Test_Days →
      TimeSeries.test_x.getD (m + 1) 0 = TimeSeries.test_x.getD m 0 + 1) := by
  have hk' : k < TimeSeries.Test_Days := by
    simp only [TimeSeries.Test_Days]; omega
  refine ⟨rfl, rfl, ?_, ?_, ?_, ?_⟩
  · simp only [TimeSeries.test_x, TimeSeries.train_x]
    rw [Notebook.arange_getD _ _ _ hk', Notebook.arange_getD _ _ _ hk]
    rfl
  · simp only [TimeSeries.test_y, TimeSeries.train_y,
      List.getD_eq_getElem?_getD, List.getElem?_map,
      List.getElem?_range hk, List.getElem?_range hk']
    rfl
  · simp [TimeSeries.test_x, Notebook.arange_length, TimeSeries.Test_Days]
  · intro m hm
    have hm' : m < TimeSeries.Test_Days := by omega
    simp only [TimeSeries.test_x]
    rw [Notebook.arange_getD _ _ _ hm, Notebook.arange_getD _ _ _ hm']
    push_cast
    ring

/-- Witness for C9 at `k = 0` with the zero data array. -/
theorem C9_test_extends_train_witness :
    0 < TimeSeries.N_Train ∧
    (TimeSeries.test_x.getD 0 0 = TimeSeries.train_x.getD 0 0) := by
  refine ⟨by decide, ?_⟩
  exact (C9_test_extends_train (fun _ _ _ _ _ => 0) 0 (by decide)).2.2.1

namespace Notebook

/-! ## Cells 8 and 17: the training loops

Both sections run textually the same loop, differing only in
`N_iterations` (500 for the time-series model, 81 for downscaling):

```
def train():
    for i in range(N_iterations):
        optimizer.zero_grad()
        output = model(train_x)
        loss = -mll(output, train_y)
        loss.backward()
        if i%10 == 0:
            print("Iteration Number: %d" % i)
            print("Loss = %f\n" % loss)
        optimizer.step()
```

We embed the loop as the trace of operations it performs, in program
order; the numeric content of each operation is delegated to the GP
library and is not part of the notebook's own code. -/

/-- One operation of a training iteration, tagged with the iteration
number `i`. -/
inductive TrainEvent : Type
  | zeroGrad (i : ℕ)
  | evalModel (i : ℕ)
  | lossAssign (i : ℕ)
  | backward (i : ℕ)
  | printIterLoss (i : ℕ)
  | optStep (i : ℕ)
deriving DecidableEq

/-- The body of iteration `i` of `train()`: zero the gradients, evaluate
the model on `train_x`, set `loss` to the negated exact marginal log
likelihood, backpropagate, print iteration number and loss when
`i % 10 == 0`, and take one optimizer step. -/
def trainIter (i : ℕ) : List TrainEvent :=
  [TrainEvent.zeroGrad i, TrainEvent.evalModel i,
   TrainEvent.lossAssign i, TrainEvent.backward i] ++
    (if i % 10 = 0 then [TrainEvent.printIterLoss i] else []) ++
    [TrainEvent.optStep i]

/-- `train()`: the trace of `for i in range(N_iterations): ...`. -/
def train (nIterations : ℕ) : List TrainEvent :=
  (List.range nIterations).flatMap trainIter

/-- `N_iterations` of the time-series training cell. -/
def N_iterations_ts : ℕ := 500

/-- `N_iterations` of the downscaling training cell. -/
def N_iterations_ds : ℕ := 81

/-- Recognizer for optimizer steps, used to count iterations. -/
def isOptStep : TrainEvent → Bool
  | TrainEvent.optStep _ => true
  | _ => false

theorem train_succ (n : ℕ) : train (n + 1) = train n ++ trainIter n := by
  simp [train, List.range_succ]

theorem countP_isOptStep_trainIter (i : ℕ) :
    (trainIter i).countP isOptStep = 1 := by
  by_cases h : i % 10 = 0 <;> simp [trainIter, h, List.countP_append,
    List.countP_cons, isOptStep]

theorem countP_isOptStep_train (n : ℕ) :
    (train n).countP isOptStep = n := by
  induction n with
  | zero => rfl
  | succ m ih =>
      rw [train_succ, List.countP_append, ih, countP_isOptStep_trainIter]

theorem body_sublist_trainIter (i : ℕ) :
    [TrainEvent.zeroGrad i, TrainEvent.evalModel i, TrainEvent.lossAssign i,
     TrainEvent.backward i, TrainEvent.optStep i].Sublist (trainIter i) := by
  by_cases h : i % 10 = 0 <;> simp [trainIter, h]

theorem trainIter_sublist_train {i n : ℕ} (h : i < n) :
    (trainIter i).Sublist (train n) := by
  induction n with
  | zero => omega
  | succ m ih =>
      rw [train_succ]
      rcases Nat.lt_succ_iff_lt_or_eq.mp h with h' | h'
      · exact (ih h').trans (List.sublist_append_left _ _)
      · subst h'
        exact List.sublist_append_right _ _

theorem printIterLoss_mem_trainIter (i j : ℕ) :
    TrainEvent.printIterLoss i ∈ trainIter j ↔ i = j ∧ j % 10 = 0 := by
  by_cases h : j % 10 = 0 <;> simp [trainIter, h]

theorem printIterLoss_mem_train (i n : ℕ) :
    TrainEvent.printIterLoss i ∈ train n ↔ i < n ∧ i % 10 = 0 := by
  simp only [train, List.mem_flatMap, List.mem_range]
  constructor
  · rintro ⟨j, hj, hmem⟩
    obtain ⟨rfl, h10⟩ := (printIterLoss_mem_trainIter i j).mp hmem
    exact ⟨hj, h10⟩
  · rintro ⟨hi, h10⟩
    exact ⟨i, hi, (printIterLoss_mem_trainIter i i).mpr ⟨rfl, h10⟩⟩

end Notebook

/-- Claim C1: each of the two training phases runs its loop for exactly
`N_iterations` iterations (500 for the time-series model, 81 for the
downscaling model): the trace contains exactly `N` optimizer steps; every
iteration `i < N` performs, in this order, zero-gradients, model
evaluation on `train_x`, the loss assignment `loss = -mll(output,
train_y)`, backpropagation, and one optimizer step; and the iteration
number and loss are printed exactly for those iterations `i` with
`i % 10 == 0`. -/
theorem C1_training_loops (N i : ℕ)
    (hN : N = Notebook.N_iterations_ts ∨ N = Notebook.N_iterations_ds)
    (hi : i < N) :
    (Notebook.train N).countP Notebook.isOptStep = N ∧
    [Notebook.TrainEvent.zeroGrad i, Notebook.TrainEvent.evalModel i,
     Notebook.TrainEvent.lossAssign i, Notebook.TrainEvent.backward i,
     Notebook.TrainEvent.optStep i].Sublist (Notebook.train N) ∧
    (Notebook.TrainEvent.printIterLoss i ∈ Notebook.train N ↔
      i % 10 = 0) := by
  refine ⟨Notebook.countP_isOptStep_train N, ?_, ?_⟩
  · exact (Notebook.body_sublist_trainIter i).trans
      (Notebook.trainIter_sublist_train hi)
  · rw [Notebook.printIterLoss_mem_train]
    exact and_iff_right hi

/-- Witness for C1: the time-series phase (`N = 500`) at iteration 7. -/
theorem C1_training_loops_witness :
    (500 = Notebook.N_iterations_ts ∨ 500 = Notebook.N_iterations_ds) ∧
    7 < 500 ∧
    ((Notebook.train 500).countP Notebook.isOptStep = 500 ∧
     [Notebook.TrainEvent.zeroGrad 7, Notebook.TrainEvent.evalModel 7,
      Notebook.TrainEvent.lossAssign 7, Notebook.TrainEvent.backward 7,
      Notebook.TrainEvent.optStep 7].Sublist (Notebook.train 500) ∧
     (Notebook.TrainEvent.printIterLoss 7 ∈ Notebook.train 500 ↔
       7 % 10 = 0)) := by
  exact ⟨Or.inl rfl, by decide,
    C1_training_loops 500 7 (Or.inl rfl) (by decide)⟩

namespace Downscale

open Notebook

/-! ## Cell 13: downscaling data prep

```
Num_Tiles = 8
Start_Lat = 4; Start_Long = 14
Day_Number = 100
tiles_x = input_data_all[Day_Number, Start_Lat:Start_Lat+Num_Tiles, Start_Long:Start_Long+Num_Tiles, :, :, :]
tiles_x = np.swapaxes(tiles_x, 1, 2)  # shape: (Num_Tiles, 16, Num_Tiles, 16, 2)
n_train = np.array(tiles_x.shape[:4]).prod()
train_x = tiles_x.reshape((n_train,-1))
tiles_y = output_data_all[Day_Number, Start_Lat:Start_Lat+Num_Tiles, Start_Long:Start_Long+Num_Tiles, :, :]
tiles_y = np.swapaxes(tiles_y, 1, 2)
train_y = tiles_y.reshape(n_train)
```
-/

def Num_Tiles : ℕ := 8
def Start_Lat : ℕ := 4
def Start_Long : ℕ := 14
def Day_Number : ℕ := 100

/-- The slice `input_data_all[Day_Number, Start_Lat:…, Start_Long:…, :, :, :]`
before the axis swap: indices (lat-tile offset, long-tile offset, row,
column, component), shape `(Num_Tiles, Num_Tiles, 16, 16, 2)`. -/
def tiles_x_raw (inp : InputArray) (i j r c comp : ℕ) : ℚ :=
  inp Day_Number (Start_Lat + i) (Start_Long + j) r c comp

/-- `tiles_x` after `np.swapaxes(tiles_x, 1, 2)`: indices
(lat-tile, row, long-tile, column, component), shape
`(Num_Tiles, 16, Num_Tiles, 16, 2)`. -/
def tiles_x (inp : InputArray) (i r j c comp : ℕ) : ℚ :=
  tiles_x_raw inp i j r c comp

/-- `tiles_x.shape` after the swap. -/
def tiles_x_shape : List ℕ := [Num_Tiles, 16, Num_Tiles, 16, 2]

/-- `n_train = np.array(tiles_x.shape[:4]).prod()`. -/
def n_train : ℕ := (tiles_x_shape.take 4).prod

/-- The column count that `-1` resolves to in
`tiles_x.reshape((n_train, -1))`: total size divided by `n_train`. -/
def train_x_cols : ℕ := tiles_x_shape.prod / n_train

/-- Row-major index decomposition of a flat index `k` over a 4-axis
array of shape `(_, d1, d2, d3)` (NumPy `reshape` semantics). -/
def unflatten4 (d1 d2 d3 k : ℕ) : ℕ × ℕ × ℕ × ℕ :=
  (k / (d1 * d2 * d3), k / (d2 * d3) % d1, k / d3 % d2, k % d3)

/-- `train_x = tiles_x.reshape((n_train, -1))`: row `k`, component
`comp`. -/
def train_x (inp : InputArray) (k comp : ℕ) : ℚ :=
  let m := unflatten4 16 Num_Tiles 16 k
  tiles_x inp m.1 m.2.1 m.2.2.1 m.2.2.2 comp

/-- The slice `output_data_all[Day_Number, Start_Lat:…, Start_Long:…, :, :]`
before the axis swap: shape `(Num_Tiles, Num_Tiles, 16, 16)`. -/
def tiles_y_raw (out : OutputArray) (i j r c : ℕ) : ℚ :=
  out Day_Number (Start_Lat + i) (Start_Long + j) r c

/-- `tiles_y` after `np.swapaxes(tiles_y, 1, 2)`: shape
`(Num_Tiles, 16, Num_Tiles, 16)`. -/
def tiles_y (out : OutputArray) (i r j c : ℕ) : ℚ :=
  tiles_y_raw out i j r c

/-- `train_y = tiles_y.reshape(n_train)`: entry `k`. -/
def train_y (out : OutputArray) (k : ℕ) : ℚ :=
  let m := unflatten4 16 Num_Tiles 16 k
  tiles_y out m.1 m.2.1 m.2.2.1 m.2.2.2

/-! ## Cell 19: the interpolation (test) grid

```
dlat = tiles_x[0,0,0,0,0] - tiles_x[0,0,1,0,0]
dlong = tiles_x[0,0,0,1,1] - tiles_x[0,0,0,0,1]
test_tiles = np.expand_dims(tiles_x, axis=(2,5))
delta_vecs = np.zeros((1,1,2,1,1,2,2))
delta_vecs[0,0,0,0,0,0,0] = +dlat/4 ; delta_vecs[0,0,0,0,0,0,1] = -dlong/4
delta_vecs[0,0,1,0,0,0,0] = -dlat/4 ; delta_vecs[0,0,1,0,0,0,1] = -dlong/4
delta_vecs[0,0,0,0,0,1,0] = +dlat/4 ; delta_vecs[0,0,0,0,0,1,1] = +dlong/4
delta_vecs[0,0,1,0,0,1,0] = -dlat/4 ; delta_vecs[0,0,1,0,0,1,1] = +dlong/4
test_tiles = test_tiles + delta_vecs
ts = np.array(test_tiles.shape)
test_tiles = test_tiles.reshape([ts[0],ts[1]*ts[2], ts[3],ts[4]*ts[5],ts[6]])
n_test = np.array(test_tiles.shape[:4]).prod()
test_x = test_tiles.reshape((n_test,-1))
```
-/

def dlat (inp : InputArray) : ℚ := tiles_x inp 0 0 0 0 0 - tiles_x inp 0 0 1 0 0

def dlong (inp : InputArray) : ℚ := tiles_x inp 0 0 0 1 1 - tiles_x inp 0 0 0 0 1

/-- The eight assigned entries of `delta_vecs` (all other entries of the
zeros array are never used after broadcasting, the two broadcast axes
having size 2): arguments are the two expanded axes `a`, `b` and the
component. -/
def delta_vecs (inp : InputArray) : ℕ → ℕ → ℕ → ℚ
  | 0, 0, 0 => dlat inp / 4
  | 0, 0, 1 => -dlong inp / 4
  | 1, 0, 0 => -dlat inp / 4
  | 1, 0, 1 => -dlong inp / 4
  | 0, 1, 0 => dlat inp / 4
  | 0, 1, 1 => dlong inp / 4
  | 1, 1, 0 => -dlat inp / 4
  | 1, 1, 1 => dlong inp / 4
  | _, _, _ => 0

/-- `test_tiles = np.expand_dims(tiles_x, axis=(2,5)) + delta_vecs`
(broadcast sum): shape `(Num_Tiles, 16, 2, Num_Tiles, 16, 2, 2)`,
indices (lat-tile, row, a, long-tile, column, b, component). -/
def test_tiles7 (inp : InputArray) (i r a j c b comp : ℕ) : ℚ :=
  tiles_x inp i r j c comp + delta_vecs inp a b comp

/-- The reshape `test_tiles.reshape([ts[0], ts[1]*ts[2], ts[3],
ts[4]*ts[5], ts[6]])` merges the adjacent axis pairs (row, a) and
(column, b) in row-major order: shape `(Num_Tiles, 32, Num_Tiles, 32, 2)`. -/
def test_tiles (inp : InputArray) (i r2 j c2 comp : ℕ) : ℚ :=
  test_tiles7 inp i (r2 / 2) (r2 % 2) j (c2 / 2) (c2 % 2) comp

/-- `test_tiles.shape` after the merging reshape. -/
def test_tiles_shape : List ℕ := [Num_Tiles, 16 * 2, Num_Tiles, 16 * 2, 2]

/-- `n_test = np.array(test_tiles.shape[:4]).prod()`. -/
def n_test : ℕ := (test_tiles_shape.take 4).prod

/-- `test_x = test_tiles.reshape((n_test, -1))`: row `k`, component
`comp`. -/
def test_x (inp : InputArray) (k comp : ℕ) : ℚ :=
  let m := unflatten4 (16 * 2) Num_Tiles (16 * 2) k
  test_tiles inp m.1 m.2.1 m.2.2.1 m.2.2.2 comp

/-! ## Cell 23: final image dimensions

```
odim = 16 * Num_Tiles
ddim = 2 * odim
downscaled_SVDI = preds_mean.cpu().numpy().reshape((ddim,ddim)).T
orig_SVDI = train_y.cpu().numpy().reshape((odim,odim)).T
```
We model the dimension computations, parametrically in `Num_Tiles` so
that the size-correctness of the two reshapes can be stated for every
positive tile count. -/

def odim : ℕ := 16 * Num_Tiles
def ddim : ℕ := 2 * odim

/-- `n_train` as the code would compute it for tile count `nt`. -/
def n_train_of (nt : ℕ) : ℕ := (([nt, 16, nt, 16, 2] : List ℕ).take 4).prod

/-- `n_test` as the code would compute it for tile count `nt`. -/
def n_test_of (nt : ℕ) : ℕ := (([nt, 16 * 2, nt, 16 * 2, 2] : List ℕ).take 4).prod

/-- `odim` for tile count `nt`. -/
def odim_of (nt : ℕ) : ℕ := 16 * nt

/-- `ddim` for tile count `nt`. -/
def ddim_of (nt : ℕ) : ℕ := 2 * odim_of nt

theorem unflatten4_flatten_train (i r j c : ℕ)
    (hi : i < 8) (hr : r < 16) (hj : j < 8) (hc : c < 16) :
    unflatten4 16 Num_Tiles 16 (((i * 16 + r) * Num_Tiles + j) * 16 + c) =
      (i, r, j, c) := by
  simp only [unflatten4, Num_Tiles, Prod.mk.injEq]
  omega

theorem unflatten4_flatten_test (i r2 j c2 : ℕ)
    (hi : i < 8) (hr : r2 < 32) (hj : j < 8) (hc : c2 < 32) :
    unflatten4 (16 * 2) Num_Tiles (16 * 2)
        (((i * 32 + r2) * Num_Tiles + j) * 32 + c2) = (i, r2, j, c2) := by
  simp only [unflatten4, Num_Tiles, Prod.mk.injEq]
  omega

end Downscale

/-- Claim C4: for the downscaling data prep (`Num_Tiles = 8`,
`Day_Number = 100`, `Start_Lat = 4`, `Start_Long = 14`), the
swapaxes-then-reshape flattening satisfies, for all
`i, j < Num_Tiles` and `r, c < 16`:
`train_y[((i*16 + r)*Num_Tiles + j)*16 + c] =
  output_data_all[Day_Number, Start_Lat + i, Start_Long + j, r, c]`,
the row of `train_x` at the same flat index equals
`input_data_all[Day_Number, Start_Lat + i, Start_Long + j, r, c, :]`,
and consequently `train_x` has shape `(256 * Num_Tiles^2, 2)` and
`train_y` has shape `(256 * Num_Tiles^2,)`. -/
theorem C4_downscale_flattening (out : Notebook.OutputArray)
    (inp : Notebook.InputArray) (i j r c : ℕ)
    (hi : i < Downscale.Num_Tiles) (hj : j < Downscale.Num_Tiles)
    (hr : r < 16) (hc : c < 16) :
    Downscale.train_y out (((i * 16 + r) * Downscale.Num_Tiles + j) * 16 + c) =
      out Downscale.Day_Number (Downscale.Start_Lat + i)
        (Downscale.Start_Long + j) r c ∧
    (∀ comp,
      Downscale.train_x inp
          (((i * 16 + r) * Downscale.Num_Tiles + j) * 16 + c) comp =
        inp Downscale.Day_Number (Downscale.Start_Lat + i)
          (Downscale.Start_Long + j) r c comp) ∧
    Downscale.n_train = 256 * Downscale.Num_Tiles ^ 2 ∧
    Downscale.train_x_cols = 2 := by
  have hi8 : i < 8 := hi
  have hj8 : j < 8 := hj
  have h := Downscale.unflatten4_flatten_train i r j c hi8 hr hj hc
  refine ⟨?_, fun comp => ?_, by decide, by decide⟩
  · simp only [Downscale.train_y, h]
    rfl
  · simp only [Downscale.train_x, h]
    rfl

/-- Witness for C4 at `i = j = r = c = 0` with zero data arrays. -/
theorem C4_downscale_flattening_witness :
    0 < Downscale.Num_Tiles ∧ 0 < 16 ∧
    (Downscale.train_y (fun _ _ _ _ _ => 0)
        (((0 * 16 + 0) * Downscale.Num_Tiles + 0) * 16 + 0) =
      (fun _ _ _ _ _ => (0 : ℚ)) Downscale.Day_Number
        (Downscale.Start_Lat + 0) (Downscale.Start_Long + 0) 0 0 ∧
     Downscale.n_train = 256 * Downscale.Num_Tiles ^ 2) := by
  have h := C4_downscale_flattening (fun _ _ _ _ _ => 0)
    (fun _ _ _ _ _ _ => 0) 0 0 0 0 (by decide) (by decide) (by decide)
    (by decide)
  exact ⟨by decide, by decide, h.1, h.2.2.1⟩

namespace Downscale

open Notebook

theorem test_x_eq_test_tiles (inp : InputArray) (i r2 j c2 comp : ℕ)
    (hi : i < 8) (hr : r2 < 32) (hj : j < 8) (hc : c2 < 32) :
    test_x inp (((i * 32 + r2) * Num_Tiles + j) * 32 + c2) comp =
      test_tiles inp i r2 j c2 comp := by
  have h : unflatten4 (16 * 2) Num_Tiles (16 * 2)
      (((i * 32 + r2) * Num_Tiles + j) * 32 + c2) = (i, r2, j, c2) :=
    unflatten4_flatten_test i r2 j c2 hi hr hj hc
  simp only [test_x, h]

/-- The test point of sub-cell `(a, b)` attached to training point
`(i, r, j, c)` is the training point displaced by
`delta_vecs inp a b`. -/
theorem test_point_eq (inp : InputArray) (i r j c a b comp : ℕ)
    (hi : i < 8) (hr : r < 16) (hj : j < 8) (hc : c < 16)
    (ha : a < 2) (hb : b < 2) :
    test_x inp (((i * 32 + (2 * r + a)) * Num_Tiles + j) * 32 + (2 * c + b))
        comp =
      tiles_x inp i r j c comp + delta_vecs inp a b comp := by
  rw [test_x_eq_test_tiles inp i (2 * r + a) j (2 * c + b) comp hi
    (by omega) hj (by omega)]
  have e1 : (2 * r + a) / 2 = r := by omega
  have e2 : (2 * r + a) % 2 = a := by omega
  have e3 : (2 * c + b) / 2 = c := by omega
  have e4 : (2 * c + b) % 2 = b := by omega
  simp only [test_tiles, e1, e2, e3, e4, test_tiles7]

end Downscale

/-- Claim C2: the downscaling test grid contains exactly
`4 * n_train = 1024 * Num_Tiles^2` points, four per training point,
displaced from that training point by the four offset vectors
`(+dlat/4, -dlong/4)`, `(-dlat/4, -dlong/4)`, `(+dlat/4, +dlong/4)`,
`(-dlat/4, +dlong/4)`, where `dlat` and `dlong` are the grid-cell side
increments computed from the training tiles
(`dlat = tiles_x[0,0,0,0,0] - tiles_x[0,0,1,0,0]`,
`dlong = tiles_x[0,0,0,1,1] - tiles_x[0,0,0,0,1]`), so every
displacement component has magnitude one quarter of such a side.  The
four test points attached to training point `(i, r, j, c)` sit at flat
indices `((i*32 + 2r+a)*Num_Tiles + j)*32 + 2c+b` for
`a, b ∈ {0, 1}`. -/
theorem C2_test_grid (inp : Notebook.InputArray) (i r j c : ℕ)
    (hi : i < Downscale.Num_Tiles) (hr : r < 16)
    (hj : j < Downscale.Num_Tiles) (hc : c < 16) :
    Downscale.n_test = 4 * Downscale.n_train ∧
    Downscale.n_test = 1024 * Downscale.Num_Tiles ^ 2 ∧
    (Downscale.test_x inp
        (((i * 32 + (2 * r + 0)) * Downscale.Num_Tiles + j) * 32 +
          (2 * c + 0)) 0 =
        Downscale.tiles_x inp i r j c 0 + Downscale.dlat inp / 4 ∧
     Downscale.test_x inp
        (((i * 32 + (2 * r + 0)) * Downscale.Num_Tiles + j) * 32 +
          (2 * c + 0)) 1 =
        Downscale.tiles_x inp i r j c 1 + -Downscale.dlong inp / 4) ∧
    (Downscale.test_x inp
        (((i * 32 + (2 * r + 1)) * Downscale.Num_Tiles + j) * 32 +
          (2 * c + 0)) 0 =
        Downscale.tiles_x inp i r j c 0 + -Downscale.dlat inp / 4 ∧
     Downscale.test_x inp
        (((i * 32 + (2 * r + 1)) * Downscale.Num_Tiles + j) * 32 +
          (2 * c + 0)) 1 =
        Downscale.tiles_x inp i r j c 1 + -Downscale.dlong inp / 4) ∧
    (Downscale.test_x inp
        (((i * 32 + (2 * r + 0)) * Downscale.Num_Tiles + j) * 32 +
          (2 * c + 1)) 0 =
        Downscale.tiles_x inp i r j c 0 + Downscale.dlat inp / 4 ∧
     Downscale.test_x inp
        (((i * 32 + (2 * r + 0)) * Downscale.Num_Tiles + j) * 32 +
          (2 * c + 1)) 1 =
        Downscale.tiles_x inp i r j c 1 + Downscale.dlong inp / 4) ∧
    (Downscale.test_x inp
        (((i * 32 + (2 * r + 1)) * Downscale.Num_Tiles + j) * 32 +
          (2 * c + 1)) 0 =
        Downscale.tiles_x inp i r j c 0 + -Downscale.dlat inp / 4 ∧
     Downscale.test_x inp
        (((i * 32 + (2 * r + 1)) * Downscale.Num_Tiles + j) * 32 +
          (2 * c + 1)) 1 =
        Downscale.tiles_x inp i r j c 1 + Downscale.dlong inp / 4) := by
  have hi8 : i < 8 := hi
  have hj8 : j < 8 := hj
  refine ⟨by decide, by decide, ⟨?_, ?_⟩, ⟨?_, ?_⟩, ⟨?_, ?_⟩, ⟨?_, ?_⟩⟩ <;>
    exact Downscale.test_point_eq inp i r j c _ _ _ hi8 hr hj8 hc
      (by decide) (by decide)

/-- Witness for C2 at `i = r = j = c = 0` with the zero input array. -/
theorem C2_test_grid_witness :
    0 < Downscale.Num_Tiles ∧ 0 < 16 ∧
    (Downscale.n_test = 4 * Downscale.n_train ∧
     Downscale.n_test = 1024 * Downscale.Num_Tiles ^ 2) := by
  have h := C2_test_grid (fun _ _ _ _ _ _ => 0) 0 0 0 0
    (by decide) (by decide) (by decide) (by decide)
  exact ⟨by decide, by decide, h.1, h.2.1⟩

/-- Claim C10: the final image reshapes are size-correct: with
`odim = 16 * Num_Tiles` and `ddim = 2 * odim`, the flattened training
targets have exactly `odim^2 = n_train` elements and the predictive
means exactly `ddim^2 = n_test` elements, so `reshape((odim, odim))` and
`reshape((ddim, ddim))` cannot fail for any positive `Num_Tiles`; at the
notebook's `Num_Tiles = 8` these agree with the concrete `n_train` and
`n_test`. -/
theorem C10_reshape_sizes (nt : ℕ) (h : 0 < nt) :
    Downscale.odim_of nt * Downscale.odim_of nt = Downscale.n_train_of nt ∧
    Downscale.ddim_of nt * Downscale.ddim_of nt = Downscale.n_test_of nt ∧
    Downscale.odim_of Downscale.Num_Tiles = Downscale.odim ∧
    Downscale.ddim_of Downscale.Num_Tiles = Downscale.ddim ∧
    Downscale.n_train_of Downscale.Num_Tiles = Downscale.n_train ∧
    Downscale.n_test_of Downscale.Num_Tiles = Downscale.n_test := by
  refine ⟨?_, ?_, rfl, rfl, by decide, by decide⟩ <;>
  · simp only [Downscale.odim_of, Downscale.ddim_of, Downscale.n_train_of,
      Downscale.n_test_of, List.take, List.prod_cons, List.prod_nil]
    ring

/-- Witness for C10 at the notebook's `Num_Tiles = 8`. -/
theorem C10_reshape_sizes_witness :
    0 < 8 ∧
    (Downscale.odim_of 8 * Downscale.odim_of 8 = Downscale.n_train_of 8 ∧
     Downscale.ddim_of 8 * Downscale.ddim_of 8 = Downscale.n_test_of 8) := by
  have h := C10_reshape_sizes 8 (by decide)
  exact ⟨by decide, h.1, h.2.1⟩

namespace Notebook

/-! ## The script skeleton

The notebook is a linear sequence of cells; we deep-embed its statements
(at the granularity of the claims: imports, file loads, array
assignments, model construction, mode switches, training, prediction,
printing and plotting) as a list executed in order.  The statement
language also has an exception-handler construct, a file write and a
network open, so that their absence from the program is a statement
about the program and not about the language. -/

/-- The two training phases of the notebook. -/
inductive Phase : Type
  | ts
  | ds
deriving DecidableEq

/-- What a `print` call of the notebook prints. -/
inductive PrintKind : Type
  | shapeTuple
  | iterLoss
  | paramScalar
deriving DecidableEq

/-- One top-level statement of the notebook. -/
inductive Stmt : Type
  | importLib (lib : String)
  | setDefaultDtype
  | loadFile (path dest : String)
  | printValue (k : PrintKind)
  | assignArray (dest : String)
  | defineModelClass (p : Phase)
  | makeLikelihood (p : Phase)
  | makeModel (p : Phase)
  | setTrainMode (p : Phase)
  | makeOptimizer (p : Phase)
  | makeMll (p : Phase)
  | defineTrainFun (p : Phase) (n : ℕ)
  | callTrainFun (p : Phase) (n : ℕ)
  | printParams (p : Phase)
  | moveToCuda
  | setEvalMode (p : Phase)
  | predictOnTest (p : Phase) (dest : String)
  | buildFigure (p : Phase) (showsPredictions : Bool)
  | showFigure (p : Phase)
  | tryExceptBlock
  | writeFileStmt (path : String)
  | openNetwork (dest : String)
deriving DecidableEq

/-- Path of the input `.npy` file (cell 2). -/
def inputPath : String :=
  "/lus/eagle/projects/datascience/cgraziani/Drought_data/droughtSVDI_data_input.npy"

/-- Path of the output `.npy` file (cell 2; the `ouput` typo is the
source's). -/
def outputPath : String :=
  "/lus/eagle/projects/datascience/cgraziani/Drought_data/droughtSVDI_data_ouput.npy"

/-- The notebook, cell by cell, as a statement list. -/
def notebook : List Stmt := [
  -- cell 1: imports
  Stmt.importLib "torch",                                --  0
  Stmt.importLib "gpytorch",                             --  1
  Stmt.setDefaultDtype,                                  --  2
  Stmt.importLib "numpy",                                --  3
  Stmt.importLib "matplotlib",                           --  4
  -- cell 2: data load
  Stmt.loadFile inputPath "input_data_all",              --  5
  Stmt.loadFile outputPath "output_data_all",            --  6
  Stmt.printValue PrintKind.shapeTuple,                  --  7
  -- cell 4: time-series data prep
  Stmt.assignArray "train_x",                            --  8
  Stmt.assignArray "train_y",                            --  9
  -- cell 6: time-series model definition
  Stmt.defineModelClass Phase.ts,                        -- 10
  Stmt.makeLikelihood Phase.ts,                          -- 11
  Stmt.makeModel Phase.ts,                               -- 12
  -- cell 8: time-series training
  Stmt.setTrainMode Phase.ts,                            -- 13
  Stmt.makeOptimizer Phase.ts,                           -- 14
  Stmt.makeMll Phase.ts,                                 -- 15
  Stmt.defineTrainFun Phase.ts 500,                      -- 16
  Stmt.callTrainFun Phase.ts 500,                        -- 17
  Stmt.printParams Phase.ts,                             -- 18
  -- cell 10: time-series test data, prediction and plot
  Stmt.assignArray "test_x",                             -- 19
  Stmt.assignArray "test_y",                             -- 20
  Stmt.setEvalMode Phase.ts,                             -- 21
  Stmt.predictOnTest Phase.ts "preds",                   -- 22
  Stmt.buildFigure Phase.ts true,                        -- 23
  Stmt.showFigure Phase.ts,                              -- 24
  -- cell 13: downscaling data prep
  Stmt.assignArray "tiles_x",                            -- 25
  Stmt.printValue PrintKind.shapeTuple,                  -- 26
  Stmt.assignArray "train_x",                            -- 27
  Stmt.printValue PrintKind.shapeTuple,                  -- 28
  Stmt.assignArray "tiles_y",                            -- 29
  Stmt.printValue PrintKind.shapeTuple,                  -- 30
  Stmt.assignArray "train_y",                            -- 31
  Stmt.printValue PrintKind.shapeTuple,                  -- 32
  -- cell 15: downscaling model definition
  Stmt.defineModelClass Phase.ds,                        -- 33
  Stmt.makeLikelihood Phase.ds,                          -- 34
  Stmt.makeModel Phase.ds,                               -- 35
  -- cell 17: downscaling training
  Stmt.moveToCuda,                                       -- 36
  Stmt.makeOptimizer Phase.ds,                           -- 37
  Stmt.makeMll Phase.ds,                                 -- 38
  Stmt.defineTrainFun Phase.ds 81,                       -- 39
  Stmt.callTrainFun Phase.ds 81,                         -- 40
  Stmt.printParams Phase.ds,                             -- 41
  -- cell 19: the interpolation grid
  Stmt.assignArray "dlat",                               -- 42
  Stmt.assignArray "dlong",                              -- 43
  Stmt.assignArray "test_tiles",                         -- 44
  Stmt.assignArray "delta_vecs",                         -- 45
  Stmt.assignArray "test_x",                             -- 46
  Stmt.moveToCuda,                                       -- 47
  -- cell 21: downscaling prediction
  Stmt.setEvalMode Phase.ds,                             -- 48
  Stmt.predictOnTest Phase.ds "preds_kiss",              -- 49
  -- cell 23: downscaling plot
  Stmt.assignArray "downscaled_SVDI",                    -- 50
  Stmt.assignArray "orig_SVDI",                          -- 51
  Stmt.buildFigure Phase.ds true,                        -- 52
  Stmt.showFigure Phase.ds]                              -- 53

/-- Externally visible effects of running a statement. -/
inductive Effect : Type
  | readsFile (path : String)
  | writesFile (path : String)
  | opensNetwork (dest : String)
  | printsText (k : PrintKind)
  | showsFigure
deriving DecidableEq

/-- Effects of one statement.  A training loop of `n` iterations prints
the iteration number and the loss for each logged iteration
(`i % 10 == 0`); a parameter cell prints the noise, length-scale,
output-scale and mean scalars. -/
def stmtEffects : Stmt → List Effect
  | Stmt.loadFile p _ => [Effect.readsFile p]
  | Stmt.printValue k => [Effect.printsText k]
  | Stmt.callTrainFun _ n =>
      (List.range n).flatMap
        (fun i => if i % 10 = 0 then
          [Effect.printsText PrintKind.iterLoss,
           Effect.printsText PrintKind.iterLoss] else [])
  | Stmt.printParams _ =>
      [Effect.printsText PrintKind.paramScalar,
       Effect.printsText PrintKind.paramScalar,
       Effect.printsText PrintKind.paramScalar,
       Effect.printsText PrintKind.paramScalar]
  | Stmt.showFigure _ => [Effect.showsFigure]
  | Stmt.writeFileStmt p => [Effect.writesFile p]
  | Stmt.openNetwork d => [Effect.opensNetwork d]
  | _ => []

/-- The effect trace of the whole notebook. -/
def notebookEffects : List Effect := notebook.flatMap stmtEffects

/-- Recognizer for file-read effects. -/
def isFileRead : Effect → Bool
  | Effect.readsFile _ => true
  | _ => false

/-- Recognizer for file-write effects. -/
def isFileWrite : Effect → Bool
  | Effect.writesFile _ => true
  | _ => false

/-- Recognizer for network effects. -/
def isNetworkOpen : Effect → Bool
  | Effect.opensNetwork _ => true
  | _ => false

/-- Recognizer for statements that catch, transform or recover from an
exception. -/
def handlesException : Stmt → Bool
  | Stmt.tryExceptBlock => true
  | _ => false

/-- `True` iff every model evaluation on test inputs is preceded, in
program order, by the completed training-loop call and by the
evaluation-mode switch of the same phase. -/
def trainedAndEvalBeforePredict (l : List Stmt) : Bool :=
  (List.range l.length).all fun k =>
    match l.getD k Stmt.moveToCuda with
    | Stmt.predictOnTest p _ =>
        ((l.take k).any fun s =>
          match s with
          | Stmt.callTrainFun q _ => decide (q = p)
          | _ => false) &&
        ((l.take k).any fun s =>
          match s with
          | Stmt.setEvalMode q => decide (q = p)
          | _ => false)
    | _ => true

/-- `True` iff every figure that displays predictions is built after the
prediction of the same phase has been computed. -/
def predictionBeforeFigure (l : List Stmt) : Bool :=
  (List.range l.length).all fun k =>
    match l.getD k Stmt.moveToCuda with
    | Stmt.buildFigure p b =>
        !b || ((l.take k).any fun s =>
          match s with
          | Stmt.predictOnTest q _ => decide (q = p)
          | _ => false)
    | _ => true

/-- Recognizer for printed-text effects. -/
def isPrintedText : Effect → Bool
  | Effect.printsText _ => true
  | _ => false

/-- Recognizer for figure displays. -/
def isFigureShown : Effect → Bool
  | Effect.showsFigure => true
  | _ => false

/-- Recognizer for printed scalar values in the sense of claim C7: an
iteration-number/loss print or a model-parameter print.  The array-shape
prints of cells 2 and 13 are printed values but not scalars. -/
def isScalarPrint : Effect → Bool
  | Effect.printsText PrintKind.iterLoss => true
  | Effect.printsText PrintKind.paramScalar => true
  | _ => false

end Notebook

/-- Claim C6: the notebook installs no error handling of its own: it is
a linear statement sequence, none of whose statements catches,
transforms or recovers from an exception (the statement language has
such a construct, `Stmt.tryExceptBlock`; the program contains none), so
every failure propagates out of the script unhandled, and no statement
retries or recovers. -/
theorem C6_no_error_handling :
    Notebook.notebook.countP Notebook.handlesException = 0 ∧
    Notebook.notebook.all (fun s => !(Notebook.handlesException s)) = true := by
  constructor
  · rfl
  · rfl

set_option maxRecDepth 10000 in
/-- Counterexample to claim C7 as stated: the claim says the notebook's
only outputs are matplotlib figures and printed scalar values (iteration
losses and the noise, length-scale, output-scale and mean parameters),
but cell 2 executes `print (input_data_all.shape, output_data_all.shape)`
and cell 13 prints four more array shapes: the effect trace contains
stdout prints of shape tuples, which are neither figures nor scalar
values. -/
theorem C7_counterexample :
    ¬ (∀ e ∈ Notebook.notebookEffects,
        Notebook.isFileRead e = true ∨ Notebook.isFigureShown e = true ∨
        Notebook.isScalarPrint e = true) := by
  intro h
  have hmem : Notebook.Effect.printsText Notebook.PrintKind.shapeTuple ∈
      Notebook.notebookEffects := by decide
  rcases h _ hmem with h' | h' | h' <;> simp [Notebook.isFileRead,
    Notebook.isFigureShown, Notebook.isScalarPrint] at h'

set_option maxRecDepth 10000 in
/-- Claim C7 as amended: executing the notebook writes no files and
opens no network connections; its only outputs are matplotlib figures
and printed values — array shapes, iteration numbers and losses, and the
noise, length-scale, output-scale and mean parameter scalars — and, in
particular, since nothing is ever written, the two data arrays loaded
from disk are left unchanged on disk. -/
theorem C7_frame_effects :
    Notebook.notebookEffects.countP Notebook.isFileWrite = 0 ∧
    Notebook.notebookEffects.countP Notebook.isNetworkOpen = 0 ∧
    Notebook.notebookEffects.all (fun e =>
      Notebook.isFileRead e || Notebook.isPrintedText e ||
      Notebook.isFigureShown e) = true ∧
    Notebook.notebookEffects.filter Notebook.isFileWrite = [] := by
  refine ⟨by decide, by decide, by decide, by decide⟩

set_option maxRecDepth 10000 in
/-- Claim C8: execution is the linear statement list `notebook`, whose
stages occur in the order data load, array reshape, model definition,
optimize, predict, plot for each of the two phases (witnessed below by
explicit positions); no model is evaluated on test inputs before the
training loop of the same phase has completed and the model has been
switched to evaluation mode; and no figure displaying predictions is
built before the prediction it displays has been computed. -/
theorem C8_stage_order :
    (∃ a b c d e f, a < b ∧ b < c ∧ c < d ∧ d < e ∧ e < f ∧
      Notebook.notebook.getD a Notebook.Stmt.moveToCuda =
        Notebook.Stmt.loadFile Notebook.outputPath "output_data_all" ∧
      Notebook.notebook.getD b Notebook.Stmt.moveToCuda =
        Notebook.Stmt.assignArray "train_x" ∧
      Notebook.notebook.getD c Notebook.Stmt.moveToCuda =
        Notebook.Stmt.defineModelClass Notebook.Phase.ts ∧
      Notebook.notebook.getD d Notebook.Stmt.moveToCuda =
        Notebook.Stmt.callTrainFun Notebook.Phase.ts 500 ∧
      Notebook.notebook.getD e Notebook.Stmt.moveToCuda =
        Notebook.Stmt.predictOnTest Notebook.Phase.ts "preds" ∧
      Notebook.notebook.getD f Notebook.Stmt.moveToCuda =
        Notebook.Stmt.showFigure Notebook.Phase.ts) ∧
    (∃ a b c d e f, a < b ∧ b < c ∧ c < d ∧ d < e ∧ e < f ∧
      Notebook.notebook.getD a Notebook.Stmt.moveToCuda =
        Notebook.Stmt.loadFile Notebook.outputPath "output_data_all" ∧
      Notebook.notebook.getD b Notebook.Stmt.moveToCuda =
        Notebook.Stmt.assignArray "tiles_x" ∧
      Notebook.notebook.getD c Notebook.Stmt.moveToCuda =
        Notebook.Stmt.defineModelClass Notebook.Phase.ds ∧
      Notebook.notebook.getD d Notebook.Stmt.moveToCuda =
        Notebook.Stmt.callTrainFun Notebook.Phase.ds 81 ∧
      Notebook.notebook.getD e Notebook.Stmt.moveToCuda =
        Notebook.Stmt.predictOnTest Notebook.Phase.ds "preds_kiss" ∧
      Notebook.notebook.getD f Notebook.Stmt.moveToCuda =
        Notebook.Stmt.showFigure Notebook.Phase.ds) ∧
    Notebook.trainedAndEvalBeforePredict Notebook.notebook = true ∧
    Notebook.predictionBeforeFigure Notebook.notebook = true := by
  refine ⟨⟨6, 8, 10, 17, 22, 24, ?_⟩, ⟨6, 25, 33, 40, 49, 53, ?_⟩,
    ?_, ?_⟩ <;> decide

set_option maxRecDepth 10000 in
/-- Claim C3: the program reads exactly two input files, at the fixed
paths `.../droughtSVDI_data_input.npy` and `.../droughtSVDI_data_ouput.npy`
(the `ouput` spelling is the source's); and every access to the loaded
input array uses six indices in the order (day, latitude-tile,
longitude-tile, row, column, component) while every access to the loaded
output array uses five indices in the order (day, latitude-tile,
longitude-tile, row, column).  The access sites are the time-series
train/test slices (day range first, then the N-S tile index 12 held in
the variable named `long`, the W-E tile index 30 held in the variable
named `lat`, then point (8,8)) and the downscaling `tiles_x` / `tiles_y`
slices (day 100, latitude-tiles from 4, longitude-tiles from 14). -/
theorem C3_file_reads_and_access_order (out : Notebook.OutputArray)
    (inp : Notebook.InputArray) (k m i j r c comp : ℕ)
    (hk : k < TimeSeries.N_Train) (hm : m < TimeSeries.Test_Days) :
    Notebook.notebookEffects.filter Notebook.isFileRead =
      [Notebook.Effect.readsFile Notebook.inputPath,
       Notebook.Effect.readsFile Notebook.outputPath] ∧
    (TimeSeries.train_y out).getD k 0 =
      out (TimeSeries.Start_Day + k) TimeSeries.long TimeSeries.lat 8 8 ∧
    (TimeSeries.test_y out).getD m 0 =
      out (TimeSeries.Start_Test + m) TimeSeries.long TimeSeries.lat 8 8 ∧
    Downscale.tiles_y out i r j c =
      out Downscale.Day_Number (Downscale.Start_Lat + i)
        (Downscale.Start_Long + j) r c ∧
    Downscale.tiles_x inp i r j c comp =
      inp Downscale.Day_Number (Downscale.Start_Lat + i)
        (Downscale.Start_Long + j) r c comp := by
  refine ⟨by decide, ?_, ?_, rfl, rfl⟩
  · simp only [TimeSeries.train_y, List.getD_eq_getElem?_getD,
      List.getElem?_map, List.getElem?_range hk]
    rfl
  · simp only [TimeSeries.test_y, List.getD_eq_getElem?_getD,
      List.getElem?_map, List.getElem?_range hm]
    rfl

set_option maxRecDepth 10000 in
/-- Witness for C3 at `k = m = 0`, zero arrays, zero tile indices. -/
theorem C3_file_reads_and_access_order_witness :
    0 < TimeSeries.N_Train ∧ 0 < TimeSeries.Test_Days ∧
    Notebook.notebookEffects.filter Notebook.isFileRead =
      [Notebook.Effect.readsFile Notebook.inputPath,
       Notebook.Effect.readsFile Notebook.outputPath] := by
  refine ⟨by decide, by decide, ?_⟩
  exact (C3_file_reads_and_access_order (fun _ _ _ _ _ => 0)
    (fun _ _ _ _ _ _ => 0) 0 0 0 0 0 0 0 (by decide) (by decide)).1

namespace Notebook

/-! ## Library-dependence of notebook quantities (claim C5)

Quantities that flow through a GP-library call (losses, learned
parameters, predictions) depend on the library's internal numerics:
random initialization, optimizer trajectory, floating-point behaviour.
We represent that internal state abstractly and call a quantity
library-dependent when two internal states can give it two values.  The
notebook's own data-preparation quantities are defined above without
reference to any such state. -/

/-- Abstract internal state of the GP library's numerics (random
initialization, optimizer trajectory, floating-point behaviour). -/
abbrev LibNumerics : Type := ℕ

/-- A quantity, seen as a function of the library's internal state,
depends on the library's internal numerics when two states can give it
two different values. -/
def DependsOnLib (f : LibNumerics → ℚ) : Prop := ∃ s t, f s ≠ f t

/-- Entry `k` of the arange-built time axis `train_x` of the time-series
section, as a function of the library state: its construction
(`np.arange`) makes no library call, so the function is constant. -/
def timeAxisEntry (k : ℕ) : LibNumerics → ℚ :=
  fun _ => TimeSeries.train_x.getD k 0

/-- Entry `(k, comp)` of the constructed downscaling test grid, as a
function of the library state: it is built from the loaded input array
alone. -/
def testGridEntry (inp : InputArray) (k comp : ℕ) : LibNumerics → ℚ :=
  fun _ => Downscale.test_x inp k comp

/-- Entry `k` of the reshaped downscaling training targets, as a
function of the library state. -/
def trainTargetEntry (out : OutputArray) (k : ℕ) : LibNumerics → ℚ :=
  fun _ => Downscale.train_y out k

end Notebook

/-- Counterexample to claim C5 as stated: the claim asserts that every
quantity produced by the notebook's own code — explicitly including the
arange-built time axes — depends on the library's random initialization,
optimizer trajectory or floating-point behaviour.  But entry 0 of the
time-series `train_x` is produced without any library call: as a
function of the library's internal state it is constant (indeed equal to
`10`), so it does not depend on that state. -/
theorem C5_counterexample :
    ¬ (Notebook.DependsOnLib (Notebook.timeAxisEntry 0)) ∧
    Notebook.timeAxisEntry 0 0 = 10 := by
  constructor
  · rintro ⟨s, t, h⟩
    exact h rfl
  · have h0 := Notebook.arange_getD TimeSeries.Start_Day TimeSeries.N_Train 0
      (by decide)
    simp only [Notebook.timeAxisEntry, TimeSeries.train_x, h0]
    norm_num [TimeSeries.Start_Day]

/-- Claim C5 as amended: quantities that flow through the GP library
(losses, learned parameters, predictions) are the ones depending on its
internal numerics, but the notebook's own data-preparation values do not:
the arange-built time axes are library-independent constants
(`train_x[k] = Start_Day + k`), and the reshaped training arrays and the
constructed test grid are library-independent functions of the loaded
data alone.  Deterministic, independently checkable invariants do
originate from the notebook's own code. -/
theorem C5_deterministic_data_prep (inp : Notebook.InputArray)
    (out : Notebook.OutputArray) (k comp : ℕ)
    (hk : k < TimeSeries.N_Train) :
    ¬ (Notebook.DependsOnLib (Notebook.timeAxisEntry k)) ∧
    Notebook.timeAxisEntry k 0 = TimeSeries.Start_Day + k ∧
    (∀ s t : Notebook.LibNumerics,
      Notebook.testGridEntry inp k comp s = Notebook.testGridEntry inp k comp t) ∧
    (∀ s t : Notebook.LibNumerics,
      Notebook.trainTargetEntry out k s = Notebook.trainTargetEntry out k t) := by
  refine ⟨?_, ?_, fun s t => rfl, fun s t => rfl⟩
  · rintro ⟨s, t, h⟩
    exact h rfl
  · have hgd := Notebook.arange_getD TimeSeries.Start_Day TimeSeries.N_Train k hk
    simp only [Notebook.timeAxisEntry, TimeSeries.train_x, hgd]

/-- Witness for the amended C5 at `k = 3` with zero arrays. -/
theorem C5_deterministic_data_prep_witness :
    3 < TimeSeries.N_Train ∧
    Notebook.timeAxisEntry 3 0 = TimeSeries.Start_Day + 3 := by
  refine ⟨by decide, ?_⟩
  exact (C5_deterministic_data_prep (fun _ _ _ _ _ _ => 0)
    (fun _ _ _ _ _ => 0) 3 0 (by decide)).2.1
